import Mathlib

/-!
A shallow embedding of `system/netd`'s `server/RouteController.cpp`
(the policy-routing control plane) together with proofs about its
rule/route orchestration logic.

External collaborators (the netlink transport outcome, `if_nametoindex`,
the CIDR prefix parser, `inet_pton`, `android_fork_execvp`, `execIptables`)
are supplied through an explicit environment record; the process state
(the `interfaceToIndex` cache) and the observable effect trace (every
netlink datagram and every external command invocation, in order) are
threaded through a `World` value.  Machine integers are `Nat` with
explicit reduction modulo `2 ^ 32` where the C code can wrap.
-/

-- BEGIN CONSTANTS (values from linux uapi headers and errno.h) -----------------

def RTM_NEWROUTE : Nat := 24
def RTM_DELROUTE : Nat := 25
def RTM_NEWRULE : Nat := 32
def RTM_DELRULE : Nat := 33

def NLM_F_REQUEST : Nat := 1
def NLM_F_ACK : Nat := 4
def NLM_F_EXCL : Nat := 512
def NLM_F_CREATE : Nat := 1024

def NETLINK_REQUEST_FLAGS : Nat := NLM_F_REQUEST + NLM_F_ACK
def NETLINK_CREATE_REQUEST_FLAGS : Nat := NETLINK_REQUEST_FLAGS + NLM_F_CREATE + NLM_F_EXCL

def AF_INET : Nat := 2
def AF_INET6 : Nat := 10

/-- The two entries of `AF_FAMILIES[]`, in source order: IPv4 first, IPv6 second. -/
def AF_FAMILIES : List Nat := [AF_INET, AF_INET6]

def FR_ACT_TO_TBL : Nat := 1
def FR_ACT_UNREACHABLE : Nat := 7

def RT_TABLE_MAIN : Nat := 254

def IFNAMSIZ : Nat := 16

def INVALID_UID : Nat := 4294967295

def RULE_PRIORITY_PRIVILEGED_LEGACY : Nat := 11000
def RULE_PRIORITY_SECURE_VPN : Nat := 12000
def RULE_PRIORITY_PER_NETWORK_EXPLICIT : Nat := 13000
def RULE_PRIORITY_PER_NETWORK_INTERFACE : Nat := 14000
def RULE_PRIORITY_LEGACY : Nat := 16000
def RULE_PRIORITY_PER_NETWORK_NORMAL : Nat := 17000
def RULE_PRIORITY_DEFAULT_NETWORK : Nat := 19000
def RULE_PRIORITY_MAIN : Nat := 20000

/-- Modelled from the spec: `RouteController::ROUTE_TABLE_OFFSET_FROM_INDEX`, declared in
`RouteController.h` (a header not among the provided sources).  The spec only calls it
"a fixed offset constant"; the header's value is 1000.  Claims below depend on it only
through `offset - 902 ≥ 0` and `index + offset > offset`. -/
def ROUTE_TABLE_OFFSET_FROM_INDEX : Nat := 1000

def ROUTE_TABLE_PRIVILEGED_LEGACY : Nat := ROUTE_TABLE_OFFSET_FROM_INDEX - 901
def ROUTE_TABLE_LEGACY : Nat := ROUTE_TABLE_OFFSET_FROM_INDEX - 902

/-- Modelled from the spec: `PERMISSION_CONNECTIVITY_INTERNAL`, a nonzero permission
value from the external permission enumeration (its header is not among the provided
sources).  Only `≠ PERMISSION_NONE` and its 2-bit field encoding matter here. -/
def PERMISSION_CONNECTIVITY_INTERNAL : Nat := 2

def PERMISSION_NONE : Nat := 0

/-- Modelled from the spec: `FWMARK_NET_ID_MASK`, the all-ones mask of the 16-bit
network-id field of the external packed mark value. -/
def FWMARK_NET_ID_MASK : Nat := 65535

/-- Modelled from the spec: `IP_PATH`, the path of the external `ip` binary invoked by
the bulk route flush (declared in a header not among the provided sources). -/
def IP_PATH : String := "/system/bin/ip"

/-- sizeof(nlmsghdr): 16 bytes. -/
def NLMSG_HDR_SIZE : Nat := 16

/-- sizeof(fib_rule_hdr) and sizeof(rtmsg): both 12 bytes. -/
def FIB_RULE_HDR_SIZE : Nat := 12

def RTMSG_SIZE : Nat := 12

def RTATTR_SIZE : Nat := 4

def U32_SIZE : Nat := 4

def U32_MOD : Nat := 4294967296

-- END CONSTANTS ----------------------------------------------------------------

/-- Modelled from the spec: the external `Fwmark` union packs a 16-bit network id,
an explicitly-selected flag, a protected-from-VPN flag and a 2-bit permission level
into one 32-bit value; disjoint bit-fields compose by placement, i.e. bitwise or. -/
def fwmarkPack (netId : Nat) (explicit prot : Bool) (perm : Nat) : Nat :=
  (netId % 65536) ||| ((if explicit then 1 else 0) <<< 16) |||
    ((if prot then 1 else 0) <<< 17) ||| ((perm % 4) <<< 18)

/-- The C expression `~mask` on a `uint32_t`. -/
def compl32 (mask : Nat) : Nat := (mask % U32_MOD) ^^^ 4294967295

-- Data model of one encoded kernel request --------------------------------------

/-- The payload of one `RTM_{NEW,DEL}RULE` datagram as `modifyIpRule` assembles it:
the `fib_rule_hdr` fields that the function sets plus every attribute value.
Attributes whose iovec length the source conditionally zeroes are reflected in
`fwmask`/`isUidRule`/`oifname` (see `ruleSegLens`). -/
structure RuleMsg where
  family : Nat
  act : Nat
  priority : Nat
  table : Nat
  fwmark : Nat
  fwmask : Nat
  uidStart : Nat
  uidEnd : Nat
  isUidRule : Bool
  oifname : Option String
  deriving DecidableEq

/-- The payload of one `RTM_{NEW,DEL}ROUTE` datagram as `modifyIpRoute` assembles it. -/
structure RouteMsg where
  family : Nat
  prefixLength : Nat
  table : Nat
  dst : List Nat
  oif : Option Nat
  gateway : Option (List Nat)
  deriving DecidableEq

inductive Payload where
  | rule : RuleMsg → Payload
  | route : RouteMsg → Payload
  deriving DecidableEq

/-- One netlink request: the header fields `sendNetlinkRequest` fills in plus the payload. -/
structure Request where
  action : Nat
  flags : Nat
  payload : Payload
  deriving DecidableEq

/-- One observable external effect, in program order. -/
inductive Event where
  | netlink : Request → Event
  | exec : List String → Event
  | iptablesCall : List String → Event
  deriving DecidableEq

-- Segment lengths of the iovec arrays (for the datagram length accounting) -------

def RTA_LENGTH (x : Nat) : Nat := RTATTR_SIZE + x

def RTA_ALIGN (x : Nat) : Nat := (x + 3) / 4 * 4

def RTA_SPACE (x : Nat) : Nat := RTA_ALIGN (RTA_LENGTH x)

/-- The iovec entry lengths of `modifyIpRule`'s message (entries `iov[1..]`; `iov[0]`
is reserved for the netlink header), with the source's conditional zero lengths. -/
def ruleSegLens (r : RuleMsg) : List Nat :=
  let ifLen := match r.oifname with
    | some s => s.length + 1
    | none => 0
  let pad := match r.oifname with
    | some s => RTA_SPACE (s.length + 1) - RTA_LENGTH (s.length + 1)
    | none => 0
  [FIB_RULE_HDR_SIZE,
   RTATTR_SIZE, U32_SIZE,
   if r.table ≠ 0 then RTATTR_SIZE else 0, if r.table ≠ 0 then U32_SIZE else 0,
   if r.fwmask ≠ 0 then RTATTR_SIZE else 0, if r.fwmask ≠ 0 then U32_SIZE else 0,
   if r.fwmask ≠ 0 then RTATTR_SIZE else 0, if r.fwmask ≠ 0 then U32_SIZE else 0,
   if r.isUidRule then RTATTR_SIZE else 0, if r.isUidRule then U32_SIZE else 0,
   if r.isUidRule then RTATTR_SIZE else 0, if r.isUidRule then U32_SIZE else 0,
   if r.oifname.isSome then RTATTR_SIZE else 0,
   ifLen, pad]

/-- The iovec entry lengths of `modifyIpRoute`'s message (entries `iov[1..]`). -/
def routeSegLens (r : RouteMsg) : List Nat :=
  [RTMSG_SIZE,
   RTATTR_SIZE, U32_SIZE,
   RTATTR_SIZE, r.dst.length,
   if r.oif.isSome then RTATTR_SIZE else 0, if r.oif.isSome then U32_SIZE else 0,
   if r.gateway.isSome then RTATTR_SIZE else 0,
   if r.gateway.isSome then r.dst.length else 0]

def payloadSegLens : Payload → List Nat
  | .rule r => ruleSegLens r
  | .route r => routeSegLens r

/-- `sendNetlinkRequest`'s length accounting: `nlmsg_len` starts at zero and the loop
adds every `iov[i].iov_len`, `iov[0]` being the 16-byte header itself; the addition is
on a `uint32_t`, hence the wrap-around. -/
def buildNlmsgLen (segLens : List Nat) : Nat :=
  List.foldl (fun acc l => (acc + l) % U32_MOD) 0 (NLMSG_HDR_SIZE :: segLens)

/-- The value of the header's length field for a given request's datagram. -/
def requestNlmsgLen (req : Request) : Nat := buildNlmsgLen (payloadSegLens req.payload)

-- State and environment ----------------------------------------------------------

/-- The external collaborators, parametrised by the kernel/oracle state `κ`:
`nameToIndex` is `if_nametoindex` (0 = unknown name), `parseCidr` the external
prefix parser (`parsePrefix`, returning a negative errno or family, raw bytes and
prefix length), `inetPton` is `inet_pton`, `send` delivers one netlink datagram and
yields the acknowledged result (0 or a negative errno, covering transport and kernel
failures alike), `exec` is `android_fork_execvp`, `iptablesRun` is `execIptables`. -/
structure Env (κ : Type) where
  nameToIndex : String → Nat
  parseCidr : String → Except Int (Nat × List Nat × Nat)
  inetPton : Nat → String → Option (List Nat)
  send : κ → Request → Int × κ
  exec : κ → List String → Int × κ
  iptablesRun : κ → List String → Int × κ

/-- The mutable process state: the `interfaceToIndex` map, the oracle state, and the
ordered trace of every external effect performed so far. -/
structure World (κ : Type) where
  cache : List (String × Nat)
  kern : κ
  trace : List Event
  deriving DecidableEq

def lookupIdx : List (String × Nat) → String → Option Nat
  | [], _ => none
  | (k, v) :: rest, n => if k = n then some v else lookupIdx rest n

/-- `interfaceToIndex[interface] = index` (std::map assignment). -/
def cacheInsert (c : List (String × Nat)) (n : String) (v : Nat) : List (String × Nat) :=
  (n, v) :: c.filter (fun p => decide (p.1 ≠ n))

/-- `interfaceToIndex.erase(interface)`. -/
def cacheErase (c : List (String × Nat)) (n : String) : List (String × Nat) :=
  c.filter (fun p => decide (p.1 ≠ n))

/-- Perform one netlink send: the oracle consumes the request and the event is recorded. -/
def doSend {κ : Type} (env : Env κ) (w : World κ) (action flags : Nat) (p : Payload) :
    Int × World κ :=
  let req : Request := ⟨action, flags, p⟩
  let rk := env.send w.kern req
  (rk.1, { w with kern := rk.2, trace := w.trace ++ [Event.netlink req] })

def doExec {κ : Type} (env : Env κ) (w : World κ) (argv : List String) : Int × World κ :=
  let rk := env.exec w.kern argv
  (rk.1, { w with kern := rk.2, trace := w.trace ++ [Event.exec argv] })

def doIptables {κ : Type} (env : Env κ) (w : World κ) (args : List String) : Int × World κ :=
  let rk := env.iptablesRun w.kern args
  (rk.1, { w with kern := rk.2, trace := w.trace ++ [Event.iptablesCall args] })

/-- Specification-side runner: deliver the given requests in order, stop at (and
return) the first nonzero result, 0 when all succeed.  Nothing is ever rolled back. -/
def runRequests {κ : Type} (env : Env κ) : World κ → List Request → Int × World κ
  | w, [] => (0, w)
  | w, req :: rest =>
    let rk := env.send w.kern req
    let w1 : World κ := { w with kern := rk.2, trace := w.trace ++ [Event.netlink req] }
    if rk.1 ≠ 0 then (rk.1, w1) else runRequests env w1 rest

-- The embedded program -----------------------------------------------------------

/-- `getRouteTableForInterface`: resolve the name, cache a successful resolution,
fall back to the cache on failure, return 0 when neither resolves the name. -/
def getRouteTableForInterface {κ : Type} (env : Env κ) (w : World κ) (interface : String) :
    Nat × World κ :=
  let index := env.nameToIndex interface
  if index ≠ 0 then
    (index + ROUTE_TABLE_OFFSET_FROM_INDEX,
      { w with cache := cacheInsert w.cache interface index })
  else
    match lookupIdx w.cache interface with
    | some idx => (if idx ≠ 0 then idx + ROUTE_TABLE_OFFSET_FROM_INDEX else 0, w)
    | none => (0, w)

def interfaceTooLong : Option String → Bool
  | some s => decide (s.length + 1 > IFNAMSIZ)
  | none => false

/-- The `fib_rule_hdr`-plus-attributes payload `modifyIpRule` builds, before the
per-family loop overwrites `rule.family`. -/
def ruleMsgBase (priority table fwmark mask : Nat) (interface : Option String)
    (uidStart uidEnd : Nat) : RuleMsg :=
  { family := 0,
    act := if table ≠ 0 then FR_ACT_TO_TBL else FR_ACT_UNREACHABLE,
    priority := priority, table := table, fwmark := fwmark, fwmask := mask,
    uidStart := uidStart, uidEnd := uidEnd,
    isUidRule := decide (uidStart ≠ INVALID_UID),
    oifname := interface }

/-- The per-family send loop of `modifyIpRule`: same message, `rule.family`
overwritten for each entry of `AF_FAMILIES`, first failure returned at once. -/
def sendRuleFamilies {κ : Type} (env : Env κ) (action flags : Nat) (base : RuleMsg) :
    World κ → List Nat → Int × World κ
  | w, [] => (0, w)
  | w, fam :: rest =>
    let res := doSend env w action flags (Payload.rule { base with family := fam })
    if res.1 ≠ 0 then res else sendRuleFamilies env action flags base res.2 rest

/-- `modifyIpRule`: validation (mark covered by mask; interface name short enough;
UID start/end both present or both absent), then one send per address family. -/
def modifyIpRule {κ : Type} (env : Env κ) (w : World κ)
    (action priority table fwmark mask : Nat) (interface : Option String)
    (uidStart uidEnd : Nat) : Int × World κ :=
  if fwmark &&& compl32 mask ≠ 0 then (-34, w)
  else if interfaceTooLong interface then (-36, w)
  else if ¬((uidStart = INVALID_UID) ↔ (uidEnd = INVALID_UID)) then (-87, w)
  else
    sendRuleFamilies env action
      (if action = RTM_NEWRULE then NETLINK_CREATE_REQUEST_FLAGS else NETLINK_REQUEST_FLAGS)
      (ruleMsgBase priority table fwmark mask interface uidStart uidEnd) w AF_FAMILIES

def routeFlags (action : Nat) : Nat :=
  if action = RTM_NEWROUTE then NETLINK_CREATE_REQUEST_FLAGS else NETLINK_REQUEST_FLAGS

/-- The tail of `modifyIpRoute` once destination and interface have been resolved:
parse the nexthop as the destination's family if present, then send one message. -/
def modifyIpRouteSend {κ : Type} (env : Env κ) (w : World κ) (action table family : Nat)
    (raw : List Nat) (plen : Nat) (oif : Option Nat) (nexthop : Option String) :
    Int × World κ :=
  match nexthop with
  | some nh =>
    match env.inetPton family nh with
    | none => (-22, w)
    | some bytes =>
      doSend env w action (routeFlags action) (Payload.route ⟨family, plen, table, raw, oif, some bytes⟩)
  | none =>
    doSend env w action (routeFlags action) (Payload.route ⟨family, plen, table, raw, oif, none⟩)

/-- `modifyIpRoute`: destination mandatory, parsed by the external prefix parser;
defensive length check; interface resolved directly through `if_nametoindex`;
exactly one kernel message (family derived from the destination, not iterated). -/
def modifyIpRoute {κ : Type} (env : Env κ) (w : World κ) (action table : Nat)
    (interface : Option String) (destination : Option String) (nexthop : Option String) :
    Int × World κ :=
  match destination with
  | none => (-14, w)
  | some dst =>
    match env.parseCidr dst with
    | .error e => (e, w)
    | .ok (family, rawAddress, prefixLength) =>
      if rawAddress.length > 16 then (-105, w)
      else
        match interface with
        | some ifname =>
          if env.nameToIndex ifname = 0 then (-19, w)
          else
            modifyIpRouteSend env w action table family rawAddress prefixLength
              (some (env.nameToIndex ifname)) nexthop
        | none => modifyIpRouteSend env w action table family rawAddress prefixLength none nexthop

inductive TableType where
  | INTERFACE : TableType
  | LEGACY : TableType
  | PRIVILEGED_LEGACY : TableType
  deriving DecidableEq

/-- The `switch (tableType)` of `modifyRoute`. -/
def tableForType {κ : Type} (env : Env κ) (w : World κ) (interface : String) :
    TableType → Nat × World κ
  | .INTERFACE => getRouteTableForInterface env w interface
  | .LEGACY => (ROUTE_TABLE_LEGACY, w)
  | .PRIVILEGED_LEGACY => (ROUTE_TABLE_PRIVILEGED_LEGACY, w)

/-- `modifyRoute`: resolve the table, install/remove the route there (tolerating
`EEXIST` on adds to the two legacy tables), and mirror directly-connected routes
into the main table (tolerating `EEXIST` on that add as well). -/
def modifyRoute {κ : Type} (env : Env κ) (w : World κ) (interface : String)
    (destination : Option String) (nexthop : Option String) (action : Nat)
    (tableType : TableType) : Int × World κ :=
  if (tableForType env w interface tableType).1 = 0 then
    (-3, (tableForType env w interface tableType).2)
  else
    let r1 := modifyIpRoute env (tableForType env w interface tableType).2 action
      (tableForType env w interface tableType).1 (some interface) destination nexthop
    if r1.1 ≠ 0 ∧ ¬(action = RTM_NEWROUTE ∧ r1.1 = -17 ∧
        (tableType = TableType.LEGACY ∨ tableType = TableType.PRIVILEGED_LEGACY)) then r1
    else
      match nexthop with
      | none =>
        let r2 := modifyIpRoute env r1.2 action RT_TABLE_MAIN (some interface) destination none
        if r2.1 ≠ 0 ∧ ¬(action = RTM_NEWROUTE ∧ r2.1 = -17) then r2 else (0, r2.2)
      | some _ => (0, r1.2)

/-- `flushRoutes`: resolve the table, forget the cached index, then run the external
flush once per IP version.  The source's argument list `{IP_PATH, IP_VERSIONS[i],
"route" "flush", "table", tableString}` lacks a comma, so adjacent string literals
concatenate and a single `"routeflush"` token is passed. -/
def flushRoutes {κ : Type} (env : Env κ) (w : World κ) (interface : String) : Int × World κ :=
  if (getRouteTableForInterface env w interface).1 = 0 then
    (-3, (getRouteTableForInterface env w interface).2)
  else
    let table := (getRouteTableForInterface env w interface).1
    let w1 : World κ :=
      let r := (getRouteTableForInterface env w interface).2
      { r with cache := cacheErase r.cache interface }
    let e4 := doExec env w1 [IP_PATH, "-4", "routeflush", "table", Nat.repr table]
    if e4.1 ≠ 0 then (-121, e4.2)
    else
      let e6 := doExec env e4.2 [IP_PATH, "-6", "routeflush", "table", Nat.repr table]
      if e6.1 ≠ 0 then (-121, e6.2) else (0, e6.2)

/-- `modifyPerNetworkRules`: the three per-network rules (by outgoing interface at
14000, by implicit network id at 17000, by explicit network id at 13000), then the
optional iptables packet-marking rule. -/
def modifyPerNetworkRules {κ : Type} (env : Env κ) (w : World κ) (netId : Nat)
    (interface : String) (permission : Nat) (add modifyIptables : Bool) : Int × World κ :=
  if (getRouteTableForInterface env w interface).1 = 0 then
    (-3, (getRouteTableForInterface env w interface).2)
  else
    let table := (getRouteTableForInterface env w interface).1
    let w0 := (getRouteTableForInterface env w interface).2
    let action := if add then RTM_NEWRULE else RTM_DELRULE
    let r1 := modifyIpRule env w0 action RULE_PRIORITY_PER_NETWORK_INTERFACE table
      (fwmarkPack 0 false false permission) (fwmarkPack 0 false false permission)
      (some interface) INVALID_UID INVALID_UID
    if r1.1 ≠ 0 then r1
    else
      let r2 := modifyIpRule env r1.2 action RULE_PRIORITY_PER_NETWORK_NORMAL table
        (fwmarkPack netId false false permission)
        (fwmarkPack FWMARK_NET_ID_MASK false false permission) none INVALID_UID INVALID_UID
      if r2.1 ≠ 0 then r2
      else
        let r3 := modifyIpRule env r2.2 action RULE_PRIORITY_PER_NETWORK_EXPLICIT table
          (fwmarkPack netId true false permission)
          (fwmarkPack FWMARK_NET_ID_MASK true false permission) none INVALID_UID INVALID_UID
        if r3.1 ≠ 0 then r3
        else
          if modifyIptables then
            let mark := "0x" ++ String.mk (Nat.toDigits 16 netId)
            let it := doIptables env r3.2
              ["-t", "mangle", if add then "-A" else "-D", "INPUT", "-i", interface,
               "-j", "MARK", "--set-mark", mark]
            if it.1 ≠ 0 then (-121, it.2) else (0, it.2)
          else (0, r3.2)

/-- `RouteController::Init`: the three baseline rules (main at 20000, legacy at
16000, privileged legacy at 11000); the fourth rule is compiled out (`#if 0`). -/
def RouteController.Init {κ : Type} (env : Env κ) (w : World κ) : Int × World κ :=
  let r1 := modifyIpRule env w RTM_NEWRULE RULE_PRIORITY_MAIN RT_TABLE_MAIN
    (fwmarkPack 0 false false 0) (fwmarkPack FWMARK_NET_ID_MASK false false 0)
    none INVALID_UID INVALID_UID
  if r1.1 ≠ 0 then r1
  else
    let r2 := modifyIpRule env r1.2 RTM_NEWRULE RULE_PRIORITY_LEGACY ROUTE_TABLE_LEGACY
      (fwmarkPack 0 false false 0) (fwmarkPack 0 true false 0) none INVALID_UID INVALID_UID
    if r2.1 ≠ 0 then r2
    else
      let r3 := modifyIpRule env r2.2 RTM_NEWRULE RULE_PRIORITY_PRIVILEGED_LEGACY
        ROUTE_TABLE_PRIVILEGED_LEGACY
        (fwmarkPack 0 false false PERMISSION_CONNECTIVITY_INTERNAL)
        (fwmarkPack 0 true false PERMISSION_CONNECTIVITY_INTERNAL) none INVALID_UID INVALID_UID
      if r3.1 ≠ 0 then r3 else (0, r3.2)

/-- `RouteController::modifyNetworkPermission`: add the new per-network rules first,
then delete the old ones. -/
def RouteController.modifyNetworkPermission {κ : Type} (env : Env κ) (w : World κ)
    (netId : Nat) (interface : String) (oldPermission newPermission : Nat) : Int × World κ :=
  let r1 := modifyPerNetworkRules env w netId interface newPermission true false
  if r1.1 ≠ 0 then r1
  else modifyPerNetworkRules env r1.2 netId interface oldPermission false false

def RouteController.addRoute {κ : Type} (env : Env κ) (w : World κ) (interface : String)
    (destination nexthop : Option String) (tableType : TableType) (_uid : Nat) : Int × World κ :=
  modifyRoute env w interface destination nexthop RTM_NEWROUTE tableType

def RouteController.removeRoute {κ : Type} (env : Env κ) (w : World κ) (interface : String)
    (destination nexthop : Option String) (tableType : TableType) (_uid : Nat) : Int × World κ :=
  modifyRoute env w interface destination nexthop RTM_DELROUTE tableType

-- Modelled collaborators for concrete runs ---------------------------------------

/-- Modelled from the spec: a minimal kernel accepting netlink requests, tracking
installed routes exactly; an add (`NLM_F_EXCL`) of a present route is rejected with
`EEXIST`, a delete of an absent route with `ESRCH`; rule requests are accepted. -/
structure Kern where
  routes : List RouteMsg
  deriving DecidableEq

def kernSend (k : Kern) (req : Request) : Int × Kern :=
  match req.payload with
  | .rule _ => (0, k)
  | .route r =>
    if req.action = RTM_NEWROUTE then
      if r ∈ k.routes then (-17, k)
      else (0, { k with routes := k.routes ++ [r] })
    else if req.action = RTM_DELROUTE then
      if r ∈ k.routes then (0, { k with routes := k.routes.filter (fun x => decide (x ≠ r)) })
      else (-3, k)
    else (0, k)

/-- A concrete environment over the modelled kernel: `wlan0` has interface index 5,
the two prefixes of the spec's examples parse as usual, external commands succeed. -/
def testEnv : Env Kern where
  nameToIndex := fun s => if s = "wlan0" then 5 else 0
  parseCidr := fun s =>
    if s = "192.0.2.0/24" then Except.ok (AF_INET, ([192, 0, 2, 0], 24))
    else if s = "10.0.0.0/24" then Except.ok (AF_INET, ([10, 0, 0, 0], 24))
    else Except.error (-22)
  inetPton := fun fam s =>
    if fam = AF_INET ∧ s = "192.0.2.1" then some [192, 0, 2, 1] else none
  send := kernSend
  exec := fun k _ => (0, k)
  iptablesRun := fun k _ => (0, k)

/-- The same environment but with every external command invocation failing. -/
def failExecEnv : Env Kern :=
  { testEnv with exec := fun k _ => (-1, k) }

/-- A trivial environment with unit oracle state (used to instantiate theorems whose
hypotheses do not constrain the oracle). -/
def unitEnv : Env Unit where
  nameToIndex := fun _ => 0
  parseCidr := fun _ => Except.error (-22)
  inetPton := fun _ _ => none
  send := fun k _ => (0, k)
  exec := fun k _ => (0, k)
  iptablesRun := fun k _ => (0, k)

def emptyKernWorld : World Kern := ⟨[], ⟨[]⟩, []⟩

def emptyUnitWorld : World Unit := ⟨[], (), []⟩

-- Bitwise helper lemmas ----------------------------------------------------------

theorem testBit_compl32 (m i : Nat) :
    (compl32 m).testBit i = (decide (i < 32) && !(m.testBit i)) := by
  unfold compl32
  have h1 : (4294967295 : Nat) = 2 ^ 32 - 1 := by norm_num
  have h2 : U32_MOD = 2 ^ 32 := by norm_num [U32_MOD]
  rw [Nat.testBit_xor, h1, Nat.testBit_two_pow_sub_one, h2, Nat.testBit_mod_two_pow]
  cases m.testBit i <;> cases Decidable.em (i < 32) with
  | _ h => simp [h]

theorem land_compl32_eq_zero {f m : Nat}
    (hsub : ∀ i, f.testBit i = true → m.testBit i = true) : f &&& compl32 m = 0 := by
  apply Nat.eq_of_testBit_eq
  intro i
  rw [Nat.testBit_land, testBit_compl32, Nat.zero_testBit]
  cases hf : f.testBit i with
  | false => simp
  | true => simp [hsub i hf]

theorem land_compl32_self (f : Nat) : f &&& compl32 f = 0 :=
  land_compl32_eq_zero (fun _ h => h)

theorem testBit_netId_field {n i : Nat} (h : Nat.testBit (n % 65536) i = true) :
    Nat.testBit 65535 i = true := by
  have h1 : (65535 : Nat) = 2 ^ 16 - 1 := by norm_num
  rw [h1, Nat.testBit_two_pow_sub_one]
  by_contra hc
  simp only [decide_eq_true_eq] at hc
  push_neg at hc
  have hlt : n % 65536 < 2 ^ i := by
    calc n % 65536 < 65536 := Nat.mod_lt _ (by norm_num)
    _ = 2 ^ 16 := by norm_num
    _ ≤ 2 ^ i := Nat.pow_le_pow_right (by norm_num) hc
  rw [Nat.testBit_lt_two_pow hlt] at h
  exact absurd h (by simp)

/-- Every bit set in a packed mark with network-id field `n` is set in the packed
mark with the full network-id mask in that field (same flags, same permission). -/
theorem fwmarkPack_land_compl32_netIdMask (n : Nat) (e : Bool) (p : Nat) :
    fwmarkPack n e false p &&& compl32 (fwmarkPack FWMARK_NET_ID_MASK e false p) = 0 := by
  apply land_compl32_eq_zero
  intro i h
  unfold fwmarkPack FWMARK_NET_ID_MASK at *
  simp only [Nat.testBit_lor, Bool.or_eq_true] at h ⊢
  have h65535 : (65535 : Nat) % 65536 = 65535 := by norm_num
  rcases h with (((hn | he) | hpr) | hp)
  · exact Or.inl (Or.inl (Or.inl (by rw [h65535]; exact testBit_netId_field hn)))
  · exact Or.inl (Or.inl (Or.inr he))
  · simp only [if_neg Bool.false_ne_true, Bool.false_eq_true, if_false,
      Nat.zero_shiftLeft, Nat.zero_testBit] at hpr
  · exact Or.inr hp

/-- The permission field is recoverable from a packed mark. -/
theorem fwmarkPack_shiftRight_18 (n : Nat) (e pr : Bool) (p : Nat) :
    fwmarkPack n e pr p >>> 18 = p % 4 := by
  apply Nat.eq_of_testBit_eq
  intro i
  rw [Nat.testBit_shiftRight]
  unfold fwmarkPack
  simp only [Nat.testBit_lor]
  have hn : Nat.testBit (n % 65536) (18 + i) = false := by
    apply Nat.testBit_lt_two_pow
    calc n % 65536 < 65536 := Nat.mod_lt _ (by norm_num)
    _ = 2 ^ 16 := by norm_num
    _ ≤ 2 ^ (18 + i) := Nat.pow_le_pow_right (by norm_num) (by omega)
  have he : Nat.testBit ((if e then 1 else 0) <<< 16) (18 + i) = false := by
    rw [Nat.testBit_shiftLeft]
    have : Nat.testBit (if e then 1 else 0) (18 + i - 16) = false := by
      apply Nat.testBit_lt_two_pow
      have : (if e then 1 else 0) ≤ 1 := by cases e <;> simp
      calc (if e then 1 else 0) < 2 := by omega
      _ = 2 ^ 1 := by norm_num
      _ ≤ 2 ^ (18 + i - 16) := Nat.pow_le_pow_right (by norm_num) (by omega)
    simp [this]
  have hpr : Nat.testBit ((if pr then 1 else 0) <<< 17) (18 + i) = false := by
    rw [Nat.testBit_shiftLeft]
    have : Nat.testBit (if pr then 1 else 0) (18 + i - 17) = false := by
      apply Nat.testBit_lt_two_pow
      have : (if pr then 1 else 0) ≤ 1 := by cases pr <;> simp
      calc (if pr then 1 else 0) < 2 := by omega
      _ = 2 ^ 1 := by norm_num
      _ ≤ 2 ^ (18 + i - 17) := Nat.pow_le_pow_right (by norm_num) (by omega)
    simp [this]
  have hp : Nat.testBit ((p % 4) <<< 18) (18 + i) = Nat.testBit (p % 4) i := by
    rw [Nat.testBit_shiftLeft]
    simp
  rw [hn, he, hpr, hp]
  simp

/-- Packed marks with different permission fields are different values. -/
theorem fwmarkPack_perm_ne {n1 n2 : Nat} {e1 e2 pr1 pr2 : Bool} {p1 p2 : Nat}
    (h : p1 % 4 ≠ p2 % 4) : fwmarkPack n1 e1 pr1 p1 ≠ fwmarkPack n2 e2 pr2 p2 := by
  intro heq
  apply h
  have := congrArg (fun x => x >>> 18) heq
  simpa [fwmarkPack_shiftRight_18] using this

-- Sequential-send characterization ----------------------------------------------

theorem runRequests_append {κ : Type} (env : Env κ) (l1 l2 : List Request) :
    ∀ w : World κ, runRequests env w (l1 ++ l2) =
      (if (runRequests env w l1).1 ≠ 0 then runRequests env w l1
       else runRequests env (runRequests env w l1).2 l2) := by
  induction l1 with
  | nil => intro w; simp [runRequests]
  | cons req rest ih =>
    intro w
    simp only [List.cons_append, runRequests]
    by_cases h : (env.send w.kern req).1 ≠ 0
    · simp [h]
    · simp only [h, if_false, ite_false, if_neg]
      exact ih _

theorem runRequests_cache {κ : Type} (env : Env κ) (l : List Request) :
    ∀ w : World κ, (runRequests env w l).2.cache = w.cache := by
  induction l with
  | nil => intro w; rfl
  | cons req rest ih =>
    intro w
    simp only [runRequests]
    by_cases h : (env.send w.kern req).1 ≠ 0
    · simp [h]
    · simp only [h, if_false, ite_false, if_neg]
      rw [ih]

theorem runRequests_trace {κ : Type} (env : Env κ) (l : List Request) :
    ∀ w : World κ, ∃ k, k ≤ l.length ∧
      (runRequests env w l).2.trace = w.trace ++ (l.take k).map Event.netlink := by
  induction l with
  | nil => intro w; exact ⟨0, by simp, by simp [runRequests]⟩
  | cons req rest ih =>
    intro w
    simp only [runRequests]
    by_cases h : (env.send w.kern req).1 ≠ 0
    · exact ⟨1, by simp, by simp [h]⟩
    · obtain ⟨k, hk, ht⟩ := ih
        { w with kern := (env.send w.kern req).2, trace := w.trace ++ [Event.netlink req] }
    
      refine ⟨k + 1, by simpa using Nat.succ_le_succ hk, ?_⟩
      simp only [h, if_false, ite_false, if_neg]
      rw [ht]
      simp

/-- The two per-family requests one `modifyIpRule` call delivers (IPv4 first). -/
def ruleRequests (action priority table fwmark mask : Nat) (interface : Option String)
    (uidStart uidEnd : Nat) : List Request :=
  AF_FAMILIES.map (fun fam =>
    ⟨action,
     if action = RTM_NEWRULE then NETLINK_CREATE_REQUEST_FLAGS else NETLINK_REQUEST_FLAGS,
     Payload.rule
       { ruleMsgBase priority table fwmark mask interface uidStart uidEnd with family := fam }⟩)

theorem sendRuleFamilies_eq_runRequests {κ : Type} (env : Env κ) (action flags : Nat)
    (base : RuleMsg) : ∀ (w : World κ) (fams : List Nat),
    sendRuleFamilies env action flags base w fams =
      runRequests env w (fams.map (fun fam =>
        ⟨action, flags, Payload.rule { base with family := fam }⟩)) := by
  intro w fams
  induction fams generalizing w with
  | nil => rfl
  | cons f rest ih =>
    simp only [List.map_cons, sendRuleFamilies, runRequests, doSend]
    by_cases h : (env.send w.kern ⟨action, flags, Payload.rule { base with family := f }⟩).1 ≠ 0
    · simp [h]
    · simp only [h, if_false, ite_false, if_neg]
      exact ih _

/-- A `modifyIpRule` call whose three validation checks pass is exactly the sequential
delivery of its two per-family requests. -/
theorem modifyIpRule_eq_runRequests {κ : Type} (env : Env κ) (w : World κ)
    (action priority table fwmark mask : Nat) (interface : Option String)
    (uidStart uidEnd : Nat) (h1 : fwmark &&& compl32 mask = 0)
    (h2 : interfaceTooLong interface = false)
    (h3 : (uidStart = INVALID_UID) ↔ (uidEnd = INVALID_UID)) :
    modifyIpRule env w action priority table fwmark mask interface uidStart uidEnd =
      runRequests env w (ruleRequests action priority table fwmark mask interface
        uidStart uidEnd) := by
  unfold modifyIpRule ruleRequests
  rw [if_neg (by simp [h1]), if_neg (by simp [h2]), if_neg (by simp [h3])]
  exact sendRuleFamilies_eq_runRequests env action _ _ w AF_FAMILIES

/-- The six datagrams `RouteController::Init` delivers when nothing fails: three
rules, each sent for IPv4 then IPv6 — the main-table rule at priority 20000 selecting
netId 0 (mark 0 under the full netId mask 0xffff), the legacy rule at priority 16000
selecting "not explicitly selected" (mark 0 under the explicitly-selected bit 0x10000),
and the privileged-legacy rule at priority 11000 selecting "not explicitly selected"
with the CONNECTIVITY_INTERNAL permission (mark 0x80000, mask 0x90000).  All six are
`RTM_NEWRULE`: nothing is ever deleted. -/
def initRequests : List Request :=
  [⟨RTM_NEWRULE, NETLINK_CREATE_REQUEST_FLAGS, Payload.rule
     ⟨AF_INET, FR_ACT_TO_TBL, RULE_PRIORITY_MAIN, RT_TABLE_MAIN, 0, 65535,
      INVALID_UID, INVALID_UID, false, none⟩⟩,
   ⟨RTM_NEWRULE, NETLINK_CREATE_REQUEST_FLAGS, Payload.rule
     ⟨AF_INET6, FR_ACT_TO_TBL, RULE_PRIORITY_MAIN, RT_TABLE_MAIN, 0, 65535,
      INVALID_UID, INVALID_UID, false, none⟩⟩,
   ⟨RTM_NEWRULE, NETLINK_CREATE_REQUEST_FLAGS, Payload.rule
     ⟨AF_INET, FR_ACT_TO_TBL, RULE_PRIORITY_LEGACY, ROUTE_TABLE_LEGACY, 0, 65536,
      INVALID_UID, INVALID_UID, false, none⟩⟩,
   ⟨RTM_NEWRULE, NETLINK_CREATE_REQUEST_FLAGS, Payload.rule
     ⟨AF_INET6, FR_ACT_TO_TBL, RULE_PRIORITY_LEGACY, ROUTE_TABLE_LEGACY, 0, 65536,
      INVALID_UID, INVALID_UID, false, none⟩⟩,
   ⟨RTM_NEWRULE, NETLINK_CREATE_REQUEST_FLAGS, Payload.rule
     ⟨AF_INET, FR_ACT_TO_TBL, RULE_PRIORITY_PRIVILEGED_LEGACY, ROUTE_TABLE_PRIVILEGED_LEGACY,
      524288, 589824, INVALID_UID, INVALID_UID, false, none⟩⟩,
   ⟨RTM_NEWRULE, NETLINK_CREATE_REQUEST_FLAGS, Payload.rule
     ⟨AF_INET6, FR_ACT_TO_TBL, RULE_PRIORITY_PRIVILEGED_LEGACY, ROUTE_TABLE_PRIVILEGED_LEGACY,
      524288, 589824, INVALID_UID, INVALID_UID, false, none⟩⟩]

/-- C1: `initialize()` installs exactly the three baseline rules of `initRequests`
(main table at 20000 matching netId 0; legacy at 16000 matching "not explicitly
selected"; privileged legacy at 11000 matching "not explicitly selected" plus
CONNECTIVITY_INTERNAL), and nothing else: for every transport oracle its behaviour
equals sequentially delivering that fixed six-datagram list, returning the first
nonzero result immediately (no rollback: every request is an `RTM_NEWRULE` install
and a failure stops the sequence without issuing further requests). -/
theorem claim_C1_init_three_baseline_rules {κ : Type} (env : Env κ) (w : World κ) :
    RouteController.Init env w = runRequests env w initRequests := by
  have hsplit : initRequests =
      ruleRequests RTM_NEWRULE RULE_PRIORITY_MAIN RT_TABLE_MAIN
        (fwmarkPack 0 false false 0) (fwmarkPack FWMARK_NET_ID_MASK false false 0)
        none INVALID_UID INVALID_UID ++
      (ruleRequests RTM_NEWRULE RULE_PRIORITY_LEGACY ROUTE_TABLE_LEGACY
        (fwmarkPack 0 false false 0) (fwmarkPack 0 true false 0)
        none INVALID_UID INVALID_UID ++
      ruleRequests RTM_NEWRULE RULE_PRIORITY_PRIVILEGED_LEGACY ROUTE_TABLE_PRIVILEGED_LEGACY
        (fwmarkPack 0 false false PERMISSION_CONNECTIVITY_INTERNAL)
        (fwmarkPack 0 true false PERMISSION_CONNECTIVITY_INTERNAL)
        none INVALID_UID INVALID_UID) := by decide
  rw [hsplit, runRequests_append, runRequests_append]
  rw [← modifyIpRule_eq_runRequests env w RTM_NEWRULE RULE_PRIORITY_MAIN RT_TABLE_MAIN
    (fwmarkPack 0 false false 0) (fwmarkPack FWMARK_NET_ID_MASK false false 0)
    none INVALID_UID INVALID_UID (by decide) (by decide) Iff.rfl]
  rw [← modifyIpRule_eq_runRequests env _ RTM_NEWRULE RULE_PRIORITY_LEGACY ROUTE_TABLE_LEGACY
    (fwmarkPack 0 false false 0) (fwmarkPack 0 true false 0)
    none INVALID_UID INVALID_UID (by decide) (by decide) Iff.rfl]
  rw [← modifyIpRule_eq_runRequests env _ RTM_NEWRULE RULE_PRIORITY_PRIVILEGED_LEGACY
    ROUTE_TABLE_PRIVILEGED_LEGACY
    (fwmarkPack 0 false false PERMISSION_CONNECTIVITY_INTERNAL)
    (fwmarkPack 0 true false PERMISSION_CONNECTIVITY_INTERNAL)
    none INVALID_UID INVALID_UID (by decide) (by decide) Iff.rfl]
  simp only [RouteController.Init]
  by_cases h1 : (modifyIpRule env w RTM_NEWRULE RULE_PRIORITY_MAIN RT_TABLE_MAIN
      (fwmarkPack 0 false false 0) (fwmarkPack FWMARK_NET_ID_MASK false false 0)
      none INVALID_UID INVALID_UID).1 ≠ 0
  · simp [h1]
  · simp only [h1, if_false, ite_false, if_neg]
    by_cases h2 : (modifyIpRule env (modifyIpRule env w RTM_NEWRULE RULE_PRIORITY_MAIN
        RT_TABLE_MAIN (fwmarkPack 0 false false 0)
        (fwmarkPack FWMARK_NET_ID_MASK false false 0) none INVALID_UID INVALID_UID).2
        RTM_NEWRULE RULE_PRIORITY_LEGACY ROUTE_TABLE_LEGACY (fwmarkPack 0 false false 0)
        (fwmarkPack 0 true false 0) none INVALID_UID INVALID_UID).1 ≠ 0
    · simp [h2]
    · simp only [h2, if_false, ite_false, if_neg]
      push_neg at h2
      split
      · rfl
      · rename_i h3
        push_neg at h3
        exact Prod.ext (by rw [h3]) rfl

/-- C2: for every (mark, mask) pair with `mark & ~mask != 0`, rule installation
returns the validation error `-ERANGE` with the world unchanged: no kernel request
is sent (the trace gains no event and the oracle state is untouched), for any
action, priority, table, interface and UID range. -/
theorem claim_C2_uncovered_mark_rejected_before_send {κ : Type} (env : Env κ)
    (w : World κ) (action priority table fwmark mask : Nat) (interface : Option String)
    (uidStart uidEnd : Nat) (h : fwmark &&& compl32 mask ≠ 0) :
    modifyIpRule env w action priority table fwmark mask interface uidStart uidEnd =
      (-34, w) := by
  unfold modifyIpRule
  rw [if_pos h]

theorem claim_C2_witness :
    ((1 : Nat) &&& compl32 0 ≠ 0) ∧
      modifyIpRule unitEnv emptyUnitWorld RTM_NEWRULE RULE_PRIORITY_MAIN RT_TABLE_MAIN 1 0
        none INVALID_UID INVALID_UID = (-34, emptyUnitWorld) :=
  ⟨by decide,
   claim_C2_uncovered_mark_rejected_before_send unitEnv emptyUnitWorld RTM_NEWRULE
     RULE_PRIORITY_MAIN RT_TABLE_MAIN 1 0 none INVALID_UID INVALID_UID (by decide)⟩

/-- C3: on every valid input (mark covered by mask, interface name short enough, UID
endpoints both present or both absent), `modifyRule` delivers the same encoded message
once per address family, IPv4 first and then IPv6: if the IPv4 send fails its error is
returned with only that one datagram on the trace (IPv6 is never attempted), and when
the IPv4 send succeeds the overall result is exactly the IPv6 send's result — so the
call returns 0 iff both family sends returned 0. -/
theorem claim_C3_per_family_sequential_sends {κ : Type} (env : Env κ) (w : World κ)
    (action priority table fwmark mask : Nat) (interface : Option String)
    (uidStart uidEnd : Nat) (h1 : fwmark &&& compl32 mask = 0)
    (h2 : interfaceTooLong interface = false)
    (h3 : (uidStart = INVALID_UID) ↔ (uidEnd = INVALID_UID)) :
    let base := ruleMsgBase priority table fwmark mask interface uidStart uidEnd
    let fl := if action = RTM_NEWRULE then NETLINK_CREATE_REQUEST_FLAGS
              else NETLINK_REQUEST_FLAGS
    let req4 : Request := ⟨action, fl, Payload.rule { base with family := AF_INET }⟩
    let req6 : Request := ⟨action, fl, Payload.rule { base with family := AF_INET6 }⟩
    let s4 := env.send w.kern req4
    let w4 : World κ := { w with kern := s4.2, trace := w.trace ++ [Event.netlink req4] }
    let s6 := env.send w4.kern req6
    let w6 : World κ := { w4 with kern := s6.2, trace := w4.trace ++ [Event.netlink req6] }
    (s4.1 ≠ 0 →
      modifyIpRule env w action priority table fwmark mask interface uidStart uidEnd =
        (s4.1, w4)) ∧
    (s4.1 = 0 →
      modifyIpRule env w action priority table fwmark mask interface uidStart uidEnd =
        (s6.1, w6)) := by
  rw [modifyIpRule_eq_runRequests env w action priority table fwmark mask interface
    uidStart uidEnd h1 h2 h3]
  simp only [ruleRequests, AF_FAMILIES, List.map_cons, List.map_nil]
  constructor
  · intro h4
    simp only [runRequests]
    simp [h4]
  · intro h4
    simp only [runRequests]
    simp [h4]
    exact fun h6 => h6.symm

theorem claim_C3_witness :
    modifyIpRule unitEnv emptyUnitWorld RTM_NEWRULE RULE_PRIORITY_MAIN RT_TABLE_MAIN 0 0
      none INVALID_UID INVALID_UID =
      (0, ⟨[], (), [Event.netlink ⟨RTM_NEWRULE, NETLINK_CREATE_REQUEST_FLAGS, Payload.rule
        ⟨AF_INET, FR_ACT_TO_TBL, RULE_PRIORITY_MAIN, RT_TABLE_MAIN, 0, 0, INVALID_UID,
         INVALID_UID, false, none⟩⟩,
        Event.netlink ⟨RTM_NEWRULE, NETLINK_CREATE_REQUEST_FLAGS, Payload.rule
        ⟨AF_INET6, FR_ACT_TO_TBL, RULE_PRIORITY_MAIN, RT_TABLE_MAIN, 0, 0, INVALID_UID,
         INVALID_UID, false, none⟩⟩]⟩) := by
  have h := (claim_C3_per_family_sequential_sends unitEnv emptyUnitWorld RTM_NEWRULE
    RULE_PRIORITY_MAIN RT_TABLE_MAIN 0 0 none INVALID_UID INVALID_UID (by decide) rfl
    Iff.rfl).2 rfl
  exact h.trans (by decide)

/-- C4: an "already exists" (`-EEXIST`) kernel rejection of the primary route install
is converted to success exactly for an add into the LEGACY or PRIVILEGED_LEGACY table
(first conjunct: with a nexthop present the call then returns 0); every other kernel
rejection of the primary install — including `-EEXIST` on an INTERFACE-table add or on
any remove — propagates verbatim (second conjunct); and calling `addRoute` twice with
identical LEGACY arguments reports success both times against the modelled kernel
(third conjunct). -/
theorem claim_C4_eexist_tolerated_only_for_legacy_adds :
    (∀ (κ : Type) (env : Env κ) (w : World κ) (iface : String) (dst : Option String)
      (nh : String) (tt : TableType),
      (tt = TableType.LEGACY ∨ tt = TableType.PRIVILEGED_LEGACY) →
      (modifyIpRoute env (tableForType env w iface tt).2 RTM_NEWROUTE
        (tableForType env w iface tt).1 (some iface) dst (some nh)).1 = -17 →
      modifyRoute env w iface dst (some nh) RTM_NEWROUTE tt =
        (0, (modifyIpRoute env (tableForType env w iface tt).2 RTM_NEWROUTE
          (tableForType env w iface tt).1 (some iface) dst (some nh)).2)) ∧
    (∀ (κ : Type) (env : Env κ) (w : World κ) (iface : String) (dst nh : Option String)
      (action : Nat) (tt : TableType),
      (tableForType env w iface tt).1 ≠ 0 →
      (modifyIpRoute env (tableForType env w iface tt).2 action
        (tableForType env w iface tt).1 (some iface) dst nh).1 ≠ 0 →
      ¬(action = RTM_NEWROUTE ∧
        (modifyIpRoute env (tableForType env w iface tt).2 action
          (tableForType env w iface tt).1 (some iface) dst nh).1 = -17 ∧
        (tt = TableType.LEGACY ∨ tt = TableType.PRIVILEGED_LEGACY)) →
      modifyRoute env w iface dst nh action tt =
        modifyIpRoute env (tableForType env w iface tt).2 action
          (tableForType env w iface tt).1 (some iface) dst nh) ∧
    ((RouteController.addRoute testEnv emptyKernWorld "wlan0" (some "192.0.2.0/24") none
        TableType.LEGACY 1234).1 = 0 ∧
      (RouteController.addRoute testEnv
        (RouteController.addRoute testEnv emptyKernWorld "wlan0" (some "192.0.2.0/24") none
          TableType.LEGACY 1234).2 "wlan0" (some "192.0.2.0/24") none
        TableType.LEGACY 1234).1 = 0) := by
  refine ⟨?_, ?_, ?_⟩
  · intro κ env w iface dst nh tt htt hee
    have htable : (tableForType env w iface tt).1 ≠ 0 := by
      rcases htt with h | h <;> subst h <;>
        simp [tableForType, ROUTE_TABLE_LEGACY, ROUTE_TABLE_PRIVILEGED_LEGACY,
          ROUTE_TABLE_OFFSET_FROM_INDEX]
    simp only [modifyRoute]
    rw [if_neg (by exact htable)]
    rw [if_neg (by
      intro hc
      exact hc.2 ⟨by trivial, hee, htt⟩)]
  · intro κ env w iface dst nh action tt htable hr hnot
    simp only [modifyRoute]
    rw [if_neg (by exact htable)]
    rw [if_pos ⟨hr, hnot⟩]
  · constructor <;> decide

/-- A kernel state already holding the legacy-table route used by `claim_C4`'s witness. -/
def kernWithLegacyRoute : Kern :=
  ⟨[⟨AF_INET, 24, ROUTE_TABLE_LEGACY, [192, 0, 2, 0], some 5, some [192, 0, 2, 1]⟩]⟩

theorem claim_C4_witness :
    (modifyRoute testEnv ⟨[], kernWithLegacyRoute, []⟩ "wlan0" (some "192.0.2.0/24")
      (some "192.0.2.1") RTM_NEWROUTE TableType.LEGACY).1 = 0 := by
  rw [claim_C4_eexist_tolerated_only_for_legacy_adds.1 Kern testEnv
    ⟨[], kernWithLegacyRoute, []⟩ "wlan0" (some "192.0.2.0/24") "192.0.2.1"
    TableType.LEGACY (Or.inl rfl) (by decide)]

theorem getRouteTableForInterface_trace {κ : Type} (env : Env κ) (w : World κ)
    (interface : String) : (getRouteTableForInterface env w interface).2.trace = w.trace ∧
      (getRouteTableForInterface env w interface).2.kern = w.kern := by
  unfold getRouteTableForInterface
  by_cases h : env.nameToIndex interface ≠ 0
  · simp [h]
  · simp only [h, if_false, ite_false, if_neg]
    cases lookupIdx w.cache interface <;> simp

/-- The registry yields 0 or an id strictly above the interface-table offset. -/
theorem getRouteTableForInterface_zero_or_above_offset {κ : Type} (env : Env κ)
    (w : World κ) (interface : String) :
    (getRouteTableForInterface env w interface).1 = 0 ∨
      (getRouteTableForInterface env w interface).1 > ROUTE_TABLE_OFFSET_FROM_INDEX := by
  unfold getRouteTableForInterface
  by_cases h : env.nameToIndex interface ≠ 0
  · right
    rw [if_pos h]
    have hpos : 0 < env.nameToIndex interface := Nat.pos_of_ne_zero h
    simp only [ROUTE_TABLE_OFFSET_FROM_INDEX]
    omega
  · rw [if_neg h]
    cases hc : lookupIdx w.cache interface with
    | none => left; rfl
    | some idx =>
      by_cases hi : idx ≠ 0
      · right
        show (if idx ≠ 0 then idx + ROUTE_TABLE_OFFSET_FROM_INDEX else 0, w).1 >
          ROUTE_TABLE_OFFSET_FROM_INDEX
        rw [if_pos hi]
        have hpos : 0 < idx := Nat.pos_of_ne_zero hi
        simp only [ROUTE_TABLE_OFFSET_FROM_INDEX]
        omega
      · left
        show (if idx ≠ 0 then idx + ROUTE_TABLE_OFFSET_FROM_INDEX else 0, w).1 = 0
        rw [if_neg hi]

/-- No table the `switch` of `modifyRoute` can resolve is the kernel's main table. -/
theorem tableForType_ne_main {κ : Type} (env : Env κ) (w : World κ) (interface : String)
    (tt : TableType) : (tableForType env w interface tt).1 ≠ RT_TABLE_MAIN := by
  cases tt with
  | INTERFACE =>
    rcases getRouteTableForInterface_zero_or_above_offset env w interface with h | h <;>
      simp only [tableForType] <;>
      simp only [ROUTE_TABLE_OFFSET_FROM_INDEX, RT_TABLE_MAIN] at h ⊢ <;> omega
  | LEGACY =>
    simp [tableForType, ROUTE_TABLE_LEGACY, ROUTE_TABLE_OFFSET_FROM_INDEX, RT_TABLE_MAIN]
  | PRIVILEGED_LEGACY =>
    simp [tableForType, ROUTE_TABLE_PRIVILEGED_LEGACY, ROUTE_TABLE_OFFSET_FROM_INDEX,
      RT_TABLE_MAIN]

/-- Whether an event is a route datagram aimed at the kernel's main table. -/
def isMainTableRoute : Event → Bool
  | .netlink ⟨_, _, .route r⟩ => decide (r.table = RT_TABLE_MAIN)
  | _ => false

/-- Any event `modifyIpRoute` appends is one route datagram aimed at its `table`
argument, carrying its `action`. -/
theorem modifyIpRoute_trace {κ : Type} (env : Env κ) (w : World κ) (action table : Nat)
    (interface destination nexthop : Option String) :
    ∀ ev ∈ (modifyIpRoute env w action table interface destination nexthop).2.trace,
      ev ∈ w.trace ∨ ∃ r : RouteMsg, r.table = table ∧
        ev = Event.netlink ⟨action, routeFlags action, Payload.route r⟩ := by
  intro ev hev
  unfold modifyIpRoute modifyIpRouteSend doSend at hev
  repeat' split at hev
  all_goals simp only [List.mem_append, List.mem_singleton] at hev
  all_goals first
    | exact Or.inl hev
    | (rcases hev with hev | hev
       · exact Or.inl hev
       · exact Or.inr ⟨_, rfl, hev⟩)

theorem tableForType_trace {κ : Type} (env : Env κ) (w : World κ) (interface : String)
    (tt : TableType) : (tableForType env w interface tt).2.trace = w.trace := by
  cases tt with
  | INTERFACE => exact (getRouteTableForInterface_trace env w interface).1
  | LEGACY => rfl
  | PRIVILEGED_LEGACY => rfl

/-- C5: for every `addRoute` with no nexthop whose primary install passed (or was
tolerated as already-existing on a legacy table), the same route is additionally
installed into the kernel's main table, and an `-EEXIST` failure of that mirrored
install is returned as success (first conjunct); when a nexthop is given, no
main-table route datagram is ever sent (second conjunct); concretely, an
INTERFACE-table add of 10.0.0.0/24 on wlan0 leaves the route in both the
interface-derived table 1005 and the main table 254 of the modelled kernel
(third conjunct). -/
theorem claim_C5_directly_connected_routes_mirrored_to_main :
    (∀ (κ : Type) (env : Env κ) (w : World κ) (iface : String) (dst : Option String)
      (tt : TableType),
      (tableForType env w iface tt).1 ≠ 0 →
      ((modifyIpRoute env (tableForType env w iface tt).2 RTM_NEWROUTE
          (tableForType env w iface tt).1 (some iface) dst none).1 = 0 ∨
        ((modifyIpRoute env (tableForType env w iface tt).2 RTM_NEWROUTE
          (tableForType env w iface tt).1 (some iface) dst none).1 = -17 ∧
          (tt = TableType.LEGACY ∨ tt = TableType.PRIVILEGED_LEGACY))) →
      modifyRoute env w iface dst none RTM_NEWROUTE tt =
        (if (modifyIpRoute env (modifyIpRoute env (tableForType env w iface tt).2
              RTM_NEWROUTE (tableForType env w iface tt).1 (some iface) dst none).2
              RTM_NEWROUTE RT_TABLE_MAIN (some iface) dst none).1 ≠ 0 ∧
            (modifyIpRoute env (modifyIpRoute env (tableForType env w iface tt).2
              RTM_NEWROUTE (tableForType env w iface tt).1 (some iface) dst none).2
              RTM_NEWROUTE RT_TABLE_MAIN (some iface) dst none).1 ≠ -17 then
          modifyIpRoute env (modifyIpRoute env (tableForType env w iface tt).2
            RTM_NEWROUTE (tableForType env w iface tt).1 (some iface) dst none).2
            RTM_NEWROUTE RT_TABLE_MAIN (some iface) dst none
        else
          (0, (modifyIpRoute env (modifyIpRoute env (tableForType env w iface tt).2
            RTM_NEWROUTE (tableForType env w iface tt).1 (some iface) dst none).2
            RTM_NEWROUTE RT_TABLE_MAIN (some iface) dst none).2))) ∧
    (∀ (κ : Type) (env : Env κ) (w : World κ) (iface : String) (dst : Option String)
      (nh : String) (action : Nat) (tt : TableType),
      ∀ ev ∈ (modifyRoute env w iface dst (some nh) action tt).2.trace,
        ev ∈ w.trace ∨ isMainTableRoute ev = false) ∧
    ((modifyRoute testEnv emptyKernWorld "wlan0" (some "10.0.0.0/24") none RTM_NEWROUTE
        TableType.INTERFACE).1 = 0 ∧
      (modifyRoute testEnv emptyKernWorld "wlan0" (some "10.0.0.0/24") none RTM_NEWROUTE
        TableType.INTERFACE).2.kern =
        ⟨[⟨AF_INET, 24, 1005, [10, 0, 0, 0], some 5, none⟩,
          ⟨AF_INET, 24, RT_TABLE_MAIN, [10, 0, 0, 0], some 5, none⟩]⟩) := by
  refine ⟨?_, ?_, ?_⟩
  · intro κ env w iface dst tt htable hok
    unfold modifyRoute
    rw [if_neg (by exact htable)]
    rw [if_neg (by
      intro hc
      rcases hok with h0 | ⟨h17, htt⟩
      · exact hc.1 h0
      · exact hc.2 ⟨rfl, h17, htt⟩)]
    by_cases h2 : (modifyIpRoute env (modifyIpRoute env (tableForType env w iface tt).2
        RTM_NEWROUTE (tableForType env w iface tt).1 (some iface) dst none).2
        RTM_NEWROUTE RT_TABLE_MAIN (some iface) dst none).1 = 0
    · simp [h2]
    · by_cases h17 : (modifyIpRoute env (modifyIpRoute env (tableForType env w iface tt).2
          RTM_NEWROUTE (tableForType env w iface tt).1 (some iface) dst none).2
          RTM_NEWROUTE RT_TABLE_MAIN (some iface) dst none).1 = -17
      · simp [h2, h17]
      · simp [h2, h17]
  · intro κ env w iface dst nh action tt ev hev
    by_cases h0 : (tableForType env w iface tt).1 = 0
    · have heq : modifyRoute env w iface dst (some nh) action tt =
          (-3, (tableForType env w iface tt).2) := by
        unfold modifyRoute
        rw [if_pos h0]
      rw [heq] at hev
      left
      have h2 : ev ∈ (tableForType env w iface tt).2.trace := hev
      rw [tableForType_trace env w iface tt] at h2
      exact h2
    · have hmem : ev ∈ (modifyIpRoute env (tableForType env w iface tt).2 action
          (tableForType env w iface tt).1 (some iface) dst (some nh)).2.trace := by
        have heq : modifyRoute env w iface dst (some nh) action tt =
            (if (modifyIpRoute env (tableForType env w iface tt).2 action
                  (tableForType env w iface tt).1 (some iface) dst (some nh)).1 ≠ 0 ∧
                ¬(action = RTM_NEWROUTE ∧
                  (modifyIpRoute env (tableForType env w iface tt).2 action
                    (tableForType env w iface tt).1 (some iface) dst (some nh)).1 = -17 ∧
                  (tt = TableType.LEGACY ∨ tt = TableType.PRIVILEGED_LEGACY)) then
              modifyIpRoute env (tableForType env w iface tt).2 action
                (tableForType env w iface tt).1 (some iface) dst (some nh)
            else
              (0, (modifyIpRoute env (tableForType env w iface tt).2 action
                (tableForType env w iface tt).1 (some iface) dst (some nh)).2)) := by
          unfold modifyRoute
          rw [if_neg h0]
        rw [heq] at hev
        split at hev
        · exact hev
        · exact hev
      have h3 := modifyIpRoute_trace env (tableForType env w iface tt).2 action
        (tableForType env w iface tt).1 (some iface) dst (some nh) ev hmem
      rcases h3 with h | ⟨r, hrt, hre⟩
      · left
        rw [tableForType_trace env w iface tt] at h
        exact h
      · right
        have hne := tableForType_ne_main env w iface tt
        rw [← hrt] at hne
        simp [isMainTableRoute, hre, hne]
  · constructor <;> decide

theorem claim_C5_witness :
    (modifyRoute testEnv emptyKernWorld "wlan0" (some "10.0.0.0/24") none RTM_NEWROUTE
      TableType.INTERFACE).1 = 0 := by
  have h := claim_C5_directly_connected_routes_mirrored_to_main.1 Kern testEnv
    emptyKernWorld "wlan0" (some "10.0.0.0/24") TableType.INTERFACE (by decide)
    (Or.inl (by decide))
  rw [h]
  decide

theorem ite_ne_zero_pair {α : Type} (x : Int × α) :
    (if x.1 ≠ 0 then x else ((0 : Int), x.2)) = x := by
  by_cases h : x.1 ≠ 0
  · rw [if_pos h]
  · rw [if_neg h]
    push_neg at h
    exact Prod.ext h.symm rfl

/-- The six datagrams one `modifyPerNetworkRules` call delivers (three rules, two
address families each): by outgoing interface at 14000, by implicit network id at
17000, by explicit network id at 13000, each carrying the permission bits. -/
def perNetworkRequests (table netId : Nat) (iface : String) (perm : Nat) (add : Bool) :
    List Request :=
  ruleRequests (if add then RTM_NEWRULE else RTM_DELRULE)
    RULE_PRIORITY_PER_NETWORK_INTERFACE table
    (fwmarkPack 0 false false perm) (fwmarkPack 0 false false perm)
    (some iface) INVALID_UID INVALID_UID ++
  (ruleRequests (if add then RTM_NEWRULE else RTM_DELRULE)
    RULE_PRIORITY_PER_NETWORK_NORMAL table
    (fwmarkPack netId false false perm) (fwmarkPack FWMARK_NET_ID_MASK false false perm)
    none INVALID_UID INVALID_UID ++
  ruleRequests (if add then RTM_NEWRULE else RTM_DELRULE)
    RULE_PRIORITY_PER_NETWORK_EXPLICIT table
    (fwmarkPack netId true false perm) (fwmarkPack FWMARK_NET_ID_MASK true false perm)
    none INVALID_UID INVALID_UID)

theorem modifyPerNetworkRules_eq_runRequests {κ : Type} (env : Env κ) (w : World κ)
    (netId : Nat) (iface : String) (perm : Nat) (add : Bool)
    (hfit : iface.length + 1 ≤ IFNAMSIZ) :
    modifyPerNetworkRules env w netId iface perm add false =
      (if (getRouteTableForInterface env w iface).1 = 0 then
        (-3, (getRouteTableForInterface env w iface).2)
      else
        runRequests env (getRouteTableForInterface env w iface).2
          (perNetworkRequests (getRouteTableForInterface env w iface).1 netId iface perm
            add)) := by
  have hlong : interfaceTooLong (some iface) = false := by
    simp only [interfaceTooLong, decide_eq_false_iff_not, not_lt, IFNAMSIZ]
    simpa [IFNAMSIZ] using hfit
  by_cases h0 : (getRouteTableForInterface env w iface).1 = 0
  · rw [if_pos h0]
    unfold modifyPerNetworkRules
    rw [if_pos h0]
  · rw [if_neg h0]
    unfold perNetworkRequests
    rw [runRequests_append, runRequests_append]
    rw [← modifyIpRule_eq_runRequests env (getRouteTableForInterface env w iface).2
      (if add then RTM_NEWRULE else RTM_DELRULE) RULE_PRIORITY_PER_NETWORK_INTERFACE
      (getRouteTableForInterface env w iface).1 (fwmarkPack 0 false false perm)
      (fwmarkPack 0 false false perm) (some iface) INVALID_UID INVALID_UID
      (land_compl32_self _) hlong Iff.rfl]
    rw [← modifyIpRule_eq_runRequests env _ (if add then RTM_NEWRULE else RTM_DELRULE)
      RULE_PRIORITY_PER_NETWORK_NORMAL (getRouteTableForInterface env w iface).1
      (fwmarkPack netId false false perm) (fwmarkPack FWMARK_NET_ID_MASK false false perm)
      none INVALID_UID INVALID_UID (fwmarkPack_land_compl32_netIdMask netId false perm)
      rfl Iff.rfl]
    rw [← modifyIpRule_eq_runRequests env _ (if add then RTM_NEWRULE else RTM_DELRULE)
      RULE_PRIORITY_PER_NETWORK_EXPLICIT (getRouteTableForInterface env w iface).1
      (fwmarkPack netId true false perm) (fwmarkPack FWMARK_NET_ID_MASK true false perm)
      none INVALID_UID INVALID_UID (fwmarkPack_land_compl32_netIdMask netId true perm)
      rfl Iff.rfl]
    unfold modifyPerNetworkRules
    rw [if_neg h0]
    simp only
    by_cases h1 : (modifyIpRule env (getRouteTableForInterface env w iface).2
        (if add then RTM_NEWRULE else RTM_DELRULE) RULE_PRIORITY_PER_NETWORK_INTERFACE
        (getRouteTableForInterface env w iface).1 (fwmarkPack 0 false false perm)
        (fwmarkPack 0 false false perm) (some iface) INVALID_UID INVALID_UID).1 ≠ 0
    · simp [h1]
    · simp only [h1, if_false, ite_false, if_neg]
      by_cases h2 : (modifyIpRule env (modifyIpRule env
          (getRouteTableForInterface env w iface).2
          (if add then RTM_NEWRULE else RTM_DELRULE) RULE_PRIORITY_PER_NETWORK_INTERFACE
          (getRouteTableForInterface env w iface).1 (fwmarkPack 0 false false perm)
          (fwmarkPack 0 false false perm) (some iface) INVALID_UID INVALID_UID).2
          (if add then RTM_NEWRULE else RTM_DELRULE) RULE_PRIORITY_PER_NETWORK_NORMAL
          (getRouteTableForInterface env w iface).1 (fwmarkPack netId false false perm)
          (fwmarkPack FWMARK_NET_ID_MASK false false perm) none INVALID_UID
          INVALID_UID).1 ≠ 0
      · simp [h2]
      · simp only [h2, if_false, ite_false, if_neg]
        rw [if_neg (show ¬(false = true) by simp)]
        exact ite_ne_zero_pair _

def eventAction : Event → Option Nat
  | .netlink req => some req.action
  | _ => none

def eventRuleFwmark : Event → Option Nat
  | .netlink ⟨_, _, .rule r⟩ => some r.fwmark
  | _ => none

theorem perNetworkRequests_shape (table netId : Nat) (iface : String) (perm : Nat)
    (add : Bool) : ∀ req ∈ perNetworkRequests table netId iface perm add,
      req.action = (if add then RTM_NEWRULE else RTM_DELRULE) ∧
      (eventRuleFwmark (Event.netlink req) = some (fwmarkPack 0 false false perm) ∨
       eventRuleFwmark (Event.netlink req) = some (fwmarkPack netId false false perm) ∨
       eventRuleFwmark (Event.netlink req) = some (fwmarkPack netId true false perm)) := by
  intro req hreq
  simp only [perNetworkRequests, ruleRequests, AF_FAMILIES, List.map_cons, List.map_nil,
    List.mem_append, List.mem_cons, List.not_mem_nil, or_false] at hreq
  rcases hreq with ((h | h) | ((h | h) | (h | h))) <;> subst h <;>
    exact ⟨rfl, by simp [eventRuleFwmark, ruleMsgBase]⟩

theorem modifyPerNetworkRules_trace {κ : Type} (env : Env κ) (w : World κ) (netId : Nat)
    (iface : String) (perm : Nat) (add : Bool) (hfit : iface.length + 1 ≤ IFNAMSIZ) :
    ∃ t, (modifyPerNetworkRules env w netId iface perm add false).2.trace = w.trace ++ t ∧
      ∀ ev ∈ t, ∃ req ∈ perNetworkRequests (getRouteTableForInterface env w iface).1 netId
        iface perm add, ev = Event.netlink req := by
  rw [modifyPerNetworkRules_eq_runRequests env w netId iface perm add hfit]
  by_cases h0 : (getRouteTableForInterface env w iface).1 = 0
  · refine ⟨[], ?_, by simp⟩
    rw [if_pos h0]
    simp [(getRouteTableForInterface_trace env w iface).1]
  · rw [if_neg h0]
    obtain ⟨k, hk, ht⟩ := runRequests_trace env
      (perNetworkRequests (getRouteTableForInterface env w iface).1 netId iface perm add)
      (getRouteTableForInterface env w iface).2
    refine ⟨(List.take k (perNetworkRequests (getRouteTableForInterface env w iface).1
      netId iface perm add)).map Event.netlink, ?_, ?_⟩
    · rw [ht, (getRouteTableForInterface_trace env w iface).1]
    · intro ev hev
      simp only [List.mem_map] at hev
      obtain ⟨req, hreq, hev⟩ := hev
      exact ⟨req, List.take_subset k _ hreq, hev.symm⟩

/-- C6: `changeNetworkPermission` runs the add-new-rules step strictly before the
remove-old-rules step.  With `A` the add step and `R` the removal step run from the
post-add state: an add failure is returned as-is and the removal is never attempted
(first conjunct); otherwise the result is exactly the removal step's, so a removal
failure returns its error while the adds stay performed (second conjunct); and the
trace decomposes as the add-phase events (all `RTM_NEWRULE` installs carrying the new
permission) followed by the remove-phase events (all `RTM_DELRULE` removals carrying
the old permission), and when the permissions differ no removal targets any rule the
add phase installed (third conjunct). -/
theorem claim_C6_permission_change_adds_before_removing {κ : Type} (env : Env κ)
    (w : World κ) (netId : Nat) (iface : String) (oldP newP : Nat) (A R : Int × World κ)
    (hA : A = modifyPerNetworkRules env w netId iface newP true false)
    (hR : R = modifyPerNetworkRules env A.2 netId iface oldP false false) :
    (A.1 ≠ 0 → RouteController.modifyNetworkPermission env w netId iface oldP newP = A) ∧
    (A.1 = 0 → RouteController.modifyNetworkPermission env w netId iface oldP newP = R) ∧
    (iface.length + 1 ≤ IFNAMSIZ →
      ∃ ta tr, A.2.trace = w.trace ++ ta ∧ R.2.trace = A.2.trace ++ tr ∧
        (∀ ev ∈ ta, eventAction ev = some RTM_NEWRULE ∧
          (eventRuleFwmark ev = some (fwmarkPack 0 false false newP) ∨
           eventRuleFwmark ev = some (fwmarkPack netId false false newP) ∨
           eventRuleFwmark ev = some (fwmarkPack netId true false newP))) ∧
        (∀ ev ∈ tr, eventAction ev = some RTM_DELRULE ∧
          (eventRuleFwmark ev = some (fwmarkPack 0 false false oldP) ∨
           eventRuleFwmark ev = some (fwmarkPack netId false false oldP) ∨
           eventRuleFwmark ev = some (fwmarkPack netId true false oldP))) ∧
        (oldP % 4 ≠ newP % 4 →
          ∀ ev ∈ tr, ∀ ev2 ∈ ta, eventRuleFwmark ev ≠ eventRuleFwmark ev2)) := by
  refine ⟨?_, ?_, ?_⟩
  · intro h
    unfold RouteController.modifyNetworkPermission
    rw [← hA]
    rw [if_pos h]
  · intro h
    unfold RouteController.modifyNetworkPermission
    rw [← hA]
    show (if A.1 ≠ 0 then A
      else modifyPerNetworkRules env A.2 netId iface oldP false false) = R
    rw [if_neg (by simp [h]), ← hR]
  · intro hfit
    obtain ⟨ta, hta, hmema⟩ := modifyPerNetworkRules_trace env w netId iface newP true hfit
    obtain ⟨tr, htr, hmemr⟩ :=
      modifyPerNetworkRules_trace env A.2 netId iface oldP false hfit
    refine ⟨ta, tr, by rw [hA]; exact hta, by rw [hR]; exact htr, ?_, ?_, ?_⟩
    · intro ev hev
      obtain ⟨req, hreqmem, hevq⟩ := hmema ev hev
      have hs := perNetworkRequests_shape _ _ _ _ _ req hreqmem
      subst hevq
      exact ⟨by simp [eventAction, hs.1], hs.2⟩
    · intro ev hev
      obtain ⟨req, hreqmem, hevq⟩ := hmemr ev hev
      have hs := perNetworkRequests_shape _ _ _ _ _ req hreqmem
      subst hevq
      exact ⟨by simp [eventAction, hs.1], hs.2⟩
    · intro hne ev hev ev2 hev2
      obtain ⟨req, hreqmem, hevq⟩ := hmemr ev hev
      obtain ⟨req2, hreqmem2, hevq2⟩ := hmema ev2 hev2
      have hs := (perNetworkRequests_shape _ _ _ _ _ req hreqmem).2
      have hs2 := (perNetworkRequests_shape _ _ _ _ _ req2 hreqmem2).2
      subst hevq hevq2
      rcases hs with h | h | h <;> rcases hs2 with h2 | h2 | h2 <;> rw [h, h2] <;>
        exact fun hc => fwmarkPack_perm_ne hne (Option.some.inj hc)

theorem claim_C6_witness :
    RouteController.modifyNetworkPermission testEnv emptyKernWorld 7 "wlan0"
      PERMISSION_NONE PERMISSION_CONNECTIVITY_INTERNAL =
      modifyPerNetworkRules testEnv
        (modifyPerNetworkRules testEnv emptyKernWorld 7 "wlan0"
          PERMISSION_CONNECTIVITY_INTERNAL true false).2 7 "wlan0" PERMISSION_NONE
        false false :=
  (claim_C6_permission_change_adds_before_removing testEnv emptyKernWorld 7 "wlan0"
    PERMISSION_NONE PERMISSION_CONNECTIVITY_INTERNAL _ _ rfl rfl).2.1 (by decide)

theorem lookupIdx_cacheInsert (c : List (String × Nat)) (n : String) (v : Nat) :
    lookupIdx (cacheInsert c n v) n = some v := by
  simp [cacheInsert, lookupIdx]

theorem getRouteTableForInterface_resolved {κ : Type} (env : Env κ) (w : World κ)
    (name : String) (h : env.nameToIndex name ≠ 0) :
    getRouteTableForInterface env w name =
      (env.nameToIndex name + ROUTE_TABLE_OFFSET_FROM_INDEX,
       { w with cache := cacheInsert w.cache name (env.nameToIndex name) }) := by
  unfold getRouteTableForInterface
  rw [if_pos h]

theorem getRouteTableForInterface_cached {κ : Type} (env : Env κ) (w : World κ)
    (name : String) (idx : Nat) (h : env.nameToIndex name = 0)
    (hc : lookupIdx w.cache name = some idx) (hi : idx ≠ 0) :
    getRouteTableForInterface env w name = (idx + ROUTE_TABLE_OFFSET_FROM_INDEX, w) := by
  unfold getRouteTableForInterface
  rw [if_neg (by simp [h]), hc]
  show ((if idx ≠ 0 then idx + ROUTE_TABLE_OFFSET_FROM_INDEX else 0 : Nat), w) = _
  rw [if_pos hi]

theorem getRouteTableForInterface_unknown {κ : Type} (env : Env κ) (w : World κ)
    (name : String) (h : env.nameToIndex name = 0)
    (hc : lookupIdx w.cache name = none) :
    getRouteTableForInterface env w name = (0, w) := by
  unfold getRouteTableForInterface
  rw [if_neg (by simp [h]), hc]

/-- C7: once an interface name has been successfully resolved, `tableForInterface`
keeps returning the same (nonzero) table id — last-known kernel index plus the fixed
offset — even under an environment in which kernel resolution now fails (the
interface was removed); for a name never successfully resolved and not cached it
returns 0 meaning not found. -/
theorem claim_C7_cached_table_survives_interface_removal :
    (∀ (κ : Type) (env1 env2 : Env κ) (w : World κ) (name : String),
      env1.nameToIndex name ≠ 0 → env2.nameToIndex name = 0 →
      (getRouteTableForInterface env2 (getRouteTableForInterface env1 w name).2 name).1 =
        (getRouteTableForInterface env1 w name).1 ∧
      (getRouteTableForInterface env1 w name).1 =
        env1.nameToIndex name + ROUTE_TABLE_OFFSET_FROM_INDEX ∧
      (getRouteTableForInterface env1 w name).1 ≠ 0) ∧
    (∀ (κ : Type) (env : Env κ) (w : World κ) (name : String),
      env.nameToIndex name = 0 → lookupIdx w.cache name = none →
      (getRouteTableForInterface env w name).1 = 0) := by
  constructor
  · intro κ env1 env2 w name h1 h2
    rw [getRouteTableForInterface_resolved env1 w name h1]
    rw [getRouteTableForInterface_cached env2 _ name (env1.nameToIndex name) h2
      (lookupIdx_cacheInsert w.cache name (env1.nameToIndex name)) h1]
    refine ⟨rfl, rfl, ?_⟩
    simp only [ROUTE_TABLE_OFFSET_FROM_INDEX]
    omega
  · intro κ env w name h hc
    rw [getRouteTableForInterface_unknown env w name h hc]

/-- The concrete environment after `wlan0` disappears: kernel resolution fails. -/
def removedIfaceEnv : Env Kern := { testEnv with nameToIndex := fun _ => 0 }

theorem claim_C7_witness :
    ((getRouteTableForInterface removedIfaceEnv
        (getRouteTableForInterface testEnv emptyKernWorld "wlan0").2 "wlan0").1 =
      (getRouteTableForInterface testEnv emptyKernWorld "wlan0").1) ∧
    (getRouteTableForInterface unitEnv emptyUnitWorld "eth0").1 = 0 := by
  constructor
  · have h := claim_C7_cached_table_survives_interface_removal.1 Kern testEnv
      removedIfaceEnv emptyKernWorld "wlan0" (by decide) (by decide)
    exact h.1
  · exact claim_C7_cached_table_survives_interface_removal.2 Unit unitEnv emptyUnitWorld
      "eth0" rfl rfl

/-- C10 (implicit): the registry returns either 0 or an id strictly greater than the
fixed offset constant, so an interface-derived table id can never equal either fixed
reserved legacy id (offset − 902 = 98 and offset − 901 = 99), those two are distinct,
and the three `TableType` resolutions of `modifyRoute` are pairwise disjoint. -/
theorem claim_C10_table_resolutions_pairwise_disjoint :
    (∀ (κ : Type) (env : Env κ) (w : World κ) (name : String),
      (getRouteTableForInterface env w name).1 = 0 ∨
        (getRouteTableForInterface env w name).1 > ROUTE_TABLE_OFFSET_FROM_INDEX) ∧
    (∀ (κ : Type) (env : Env κ) (w : World κ) (name : String),
      (getRouteTableForInterface env w name).1 ≠ ROUTE_TABLE_LEGACY ∧
      (getRouteTableForInterface env w name).1 ≠ ROUTE_TABLE_PRIVILEGED_LEGACY) ∧
    ROUTE_TABLE_LEGACY ≠ ROUTE_TABLE_PRIVILEGED_LEGACY ∧
    (∀ (κ : Type) (env : Env κ) (w : World κ) (name : String) (tt1 tt2 : TableType),
      tt1 ≠ tt2 →
      (tableForType env w name tt1).1 ≠ (tableForType env w name tt2).1) := by
  have hmain : ∀ (κ : Type) (env : Env κ) (w : World κ) (name : String),
      (getRouteTableForInterface env w name).1 ≠ ROUTE_TABLE_LEGACY ∧
      (getRouteTableForInterface env w name).1 ≠ ROUTE_TABLE_PRIVILEGED_LEGACY := by
    intro κ env w name
    rcases getRouteTableForInterface_zero_or_above_offset env w name with h | h <;>
      constructor <;>
      simp only [ROUTE_TABLE_LEGACY, ROUTE_TABLE_PRIVILEGED_LEGACY,
        ROUTE_TABLE_OFFSET_FROM_INDEX] at h ⊢ <;> omega
  refine ⟨fun κ env w name => getRouteTableForInterface_zero_or_above_offset env w name,
    hmain, by decide, ?_⟩
  intro κ env w name tt1 tt2 hne
  have hI := hmain κ env w name
  cases tt1 with
  | INTERFACE =>
    cases tt2 with
    | INTERFACE => exact absurd rfl hne
    | LEGACY => exact hI.1
    | PRIVILEGED_LEGACY => exact hI.2
  | LEGACY =>
    cases tt2 with
    | INTERFACE => exact fun hc => hI.1 hc.symm
    | LEGACY => exact absurd rfl hne
    | PRIVILEGED_LEGACY =>
      simp [tableForType, ROUTE_TABLE_LEGACY, ROUTE_TABLE_PRIVILEGED_LEGACY,
        ROUTE_TABLE_OFFSET_FROM_INDEX]
  | PRIVILEGED_LEGACY =>
    cases tt2 with
    | INTERFACE => exact fun hc => hI.2 hc.symm
    | LEGACY =>
      simp [tableForType, ROUTE_TABLE_LEGACY, ROUTE_TABLE_PRIVILEGED_LEGACY,
        ROUTE_TABLE_OFFSET_FROM_INDEX]
    | PRIVILEGED_LEGACY => exact absurd rfl hne

theorem claim_C10_witness :
    (tableForType unitEnv emptyUnitWorld "wlan0" TableType.LEGACY).1 ≠
      (tableForType unitEnv emptyUnitWorld "wlan0" TableType.PRIVILEGED_LEGACY).1 :=
  claim_C10_table_resolutions_pairwise_disjoint.2.2.2 Unit unitEnv emptyUnitWorld "wlan0"
    TableType.LEGACY TableType.PRIVILEGED_LEGACY (by decide)

/-- C8 (code bug): running `flushRoutes` on `wlan0` (cached index 5, so derived
table 1005).  First conjunct: with the external command reporting success, the two
invocations carry the single token `"routeflush"` — the source's missing comma
between `"route"` and `"flush"` — so no `ip route flush` command can ever run and no
route is removed; the cached mapping is nonetheless erased.  Second conjunct: with
the external command failing, the call returns `-EREMOTEIO` and the cached mapping
has still been erased, because the source erases it before invoking the flush, not
after it as the spec states. -/
theorem claim_C8_flushRoutes_malformed_argv_and_early_erase :
    (flushRoutes testEnv ⟨[("wlan0", 5)], ⟨[]⟩, []⟩ "wlan0" =
      (0, ⟨[], ⟨[]⟩, [Event.exec [IP_PATH, "-4", "routeflush", "table", "1005"],
                      Event.exec [IP_PATH, "-6", "routeflush", "table", "1005"]]⟩)) ∧
    (flushRoutes failExecEnv ⟨[("wlan0", 5)], ⟨[]⟩, []⟩ "wlan0" =
      (-121, ⟨[], ⟨[]⟩, [Event.exec [IP_PATH, "-4", "routeflush", "table", "1005"]]⟩)) := by
  constructor <;> decide

/-- C9 counterexample: for the first baseline rule's payload the header's length
field (60) is not the sum of the caller-passed segment lengths (44): it also counts
the 16-byte netlink header itself. -/
theorem claim_C9_counterexample :
    buildNlmsgLen (payloadSegLens (Payload.rule ⟨AF_INET, FR_ACT_TO_TBL,
      RULE_PRIORITY_MAIN, RT_TABLE_MAIN, 0, 65535, INVALID_UID, INVALID_UID, false,
      none⟩)) ≠
    (payloadSegLens (Payload.rule ⟨AF_INET, FR_ACT_TO_TBL, RULE_PRIORITY_MAIN,
      RT_TABLE_MAIN, 0, 65535, INVALID_UID, INVALID_UID, false, none⟩)).sum := by
  decide

theorem foldl_add_mod (l : List Nat) : ∀ a : Nat,
    List.foldl (fun acc x => (acc + x) % U32_MOD) (a % U32_MOD) l =
      (a + l.sum) % U32_MOD := by
  induction l with
  | nil => intro a; simp
  | cons x xs ih =>
    intro a
    simp only [List.foldl_cons, List.sum_cons]
    rw [Nat.mod_add_mod, ih (a + x), Nat.add_assoc]

/-- C9 (amended): the datagram's header length field equals the netlink header's own
size (16 bytes) plus the sum of the caller-passed segment lengths, reduced modulo
2^32 — the total datagram size, not the bare segment sum. -/
theorem claim_C9_header_len_is_header_plus_segments (segLens : List Nat) :
    buildNlmsgLen segLens = (NLMSG_HDR_SIZE + segLens.sum) % U32_MOD := by
  unfold buildNlmsgLen
  simp only [List.foldl_cons]
  have h0 : ((0 : Nat) + NLMSG_HDR_SIZE) % U32_MOD = NLMSG_HDR_SIZE % U32_MOD := by
    simp
  rw [h0, foldl_add_mod segLens NLMSG_HDR_SIZE]
